import Mathlib

/-!
Verification of the CogniCal memory-service module
(`src/src-tauri/src-python/main.py`).

The module is a facade of five functions over two module-level globals
(`_kb_path : Optional[Path]`, `_initialized : bool`).  We embed it
shallowly:

* a `ServiceState` structure holds the two globals;
* the filesystem is an abstract `FS`: a list of directories that exist,
  plus an environment oracle `mkdirErr` saying whether `Path.mkdir`
  raises at a given path (modelling permission errors and the like);
* Python's `Path(s)` string normalisation (POSIX flavour) is
  `pathNorm`: it drops empty and `"."` components, keeps the root, and
  maps the empty path to `"."`;
* every operation is a total Lean function returning a `Dict`
  (association list of string keys to JSON-like values), mirroring the
  fact that the Python functions catch all exceptions and always return
  a dict;
* `runOp` / `runOps` run sequences of the five operations, for
  reachability statements.
-/

/-- JSON-like values appearing in the result dictionaries of the
Python functions: strings, booleans, `None`, and lists. -/
inductive Value where
  | str : String → Value
  | bool : Bool → Value
  | null : Value
  | list : List Value → Value

/-- A Python dict as returned by the five functions: an association
list from string keys to values, in insertion order. -/
abbrev Dict := List (String × Value)

/-- Dictionary lookup (first binding of the key wins, as in a Python
dict literal where keys are distinct anyway). -/
def getVal : Dict → String → Option Value
  | [], _ => none
  | (k, v) :: rest, key => if k = key then some v else getVal rest key

/-- Root of a POSIX path as `pathlib` computes it: `"//"` for exactly
two leading slashes, `"/"` for one or three-or-more, `""` otherwise. -/
def pathRoot (s : String) : String :=
  match s.data with
  | '/' :: '/' :: '/' :: _ => "/"
  | '/' :: '/' :: _ => "//"
  | '/' :: _ => "/"
  | _ => ""

/-- Split a character list at every `'/'`, keeping empty pieces, as
Python's `str.split('/')` does. -/
def splitOnSlash : List Char → List (List Char)
  | [] => [[]]
  | c :: rest =>
      match splitOnSlash rest with
      | [] => [[]]
      | w :: ws => if c = '/' then [] :: w :: ws else (c :: w) :: ws

/-- Components of a POSIX path as `pathlib` keeps them: split on `/`,
dropping empty components and `"."` components (`".."` is kept). -/
def pathParts (s : String) : List String :=
  ((splitOnSlash s.data).map String.mk).filter (fun c => c ≠ "" ∧ c ≠ ".")

/-- Join path components with `/` separators. -/
def joinParts : List String → String
  | [] => ""
  | [p] => p
  | p :: rest => p ++ "/" ++ joinParts rest

/-- Rebuild the string form of a parsed path, as `str(Path(s))` would
print it; a rootless path with no components prints as `"."`. -/
def joinPath (r : String) (ps : List String) : String :=
  if r = "" ∧ ps = [] then "." else r ++ joinParts ps

/-- String normalisation performed by Python's `Path(s)` constructor
followed by `str(...)` (line 38 and lines 47-48 of `main.py`):
collapse slashes, drop `"."` components, empty path becomes `"."`. -/
def pathNorm (s : String) : String :=
  joinPath (pathRoot s) (pathParts s)

/-- Directories brought into existence by
`Path.mkdir(parents=True, ...)`: the target path together with every
ancestor built from a non-empty take of its components. -/
def mkdirTargets (r : String) (ps : List String) : List String :=
  if ps.isEmpty then [joinPath r ps]
  else (List.range ps.length).map (fun i => joinPath r (ps.take (i + 1)))

/-- Abstract filesystem: the set of directories that currently exist,
and an environment oracle giving the error message `mkdir` raises at a
given (normalised) path, if it raises at all.  The oracle models
OS-level failures such as permission errors. -/
structure FS where
  dirs : List String
  mkdirErr : String → Option String

/-- Semantics of `_kb_path.mkdir(parents=True, exist_ok=True)`
(line 41 of `main.py`) on the abstract filesystem: an existing
directory is accepted silently (`exist_ok=True`); otherwise the
environment decides between raising and creating the directory with
all missing parents (`parents=True`). -/
def fsMkdir (fs : FS) (r : String) (ps : List String) : Except String FS :=
  let p := joinPath r ps
  if p ∈ fs.dirs then .ok fs
  else
    match fs.mkdirErr p with
    | some e => .error e
    | none => .ok { fs with dirs := mkdirTargets r ps ++ fs.dirs }

/-- The two module-level globals of `main.py`:
`_kb_path : Optional[Path]` (stored here in its string form) and
`_initialized : bool` (lines 22-23). -/
structure ServiceState where
  kb_path : Option String
  initialized : Bool
deriving DecidableEq, Repr

/-- State at module load: `_kb_path = None`, `_initialized = False`
(lines 22-23 of `main.py`). -/
def initialState : ServiceState :=
  { kb_path := none, initialized := false }

/-- Runtime facts reported by `sys.version`, `sys.platform` and
`sys.executable`; opaque to the module, so carried as a parameter. -/
structure Runtime where
  pythonVersion : String
  platform : String
  executable : String
deriving DecidableEq, Repr

/-- Embedding of `initialize_memory` (lines 25-56 of `main.py`).
`_kb_path` is assigned the normalised path first (line 38); then
`mkdir` runs (line 41); on success `_initialized` is set and the
success dict returned (lines 44-49); a raised exception is caught and
turned into the failure dict (lines 51-56), leaving the already
overwritten `_kb_path` and the old `_initialized` in place. -/
def initialize_memory (st : ServiceState) (fs : FS) (kb_path_str : String) :
    Dict × ServiceState × FS :=
  let r := pathRoot kb_path_str
  let ps := pathParts kb_path_str
  let p := joinPath r ps
  let st1 : ServiceState := { st with kb_path := some p }
  match fsMkdir fs r ps with
  | .ok fs1 =>
      ([("success", .bool true),
        ("message", .str ("Memory service initialized at " ++ p)),
        ("kb_path", .str p)],
       { st1 with initialized := true }, fs1)
  | .error e =>
      ([("success", .bool false),
        ("message", .str ("Failed to initialize: " ++ e)),
        ("error", .str e)],
       st1, fs)

/-- Embedding of `search_memory` (lines 59-92 of `main.py`).  The body
of the `try` is a pure dict construction, so the `except` branch of
lines 86-92 is dead and the function is total. -/
def search_memory (st : ServiceState) (query : String) (limit : Int) : Dict :=
  if !st.initialized then
    [("success", .bool false),
     ("message", .str "Memory service not initialized"),
     ("results", .list [])]
  else
    [("success", .bool true),
     ("query", .str query),
     ("results", .list []),
     ("message", .str "Search functionality coming soon")]

/-- Embedding of `store_conversation` (lines 95-132 of `main.py`).
As with `search_memory`, the `try` body is a pure dict construction,
so the `except` branch of lines 127-132 is dead.  The `limit`-style
unused arguments (`user_message`, `assistant_message`, `metadata`) are
accepted and ignored, as in the source. -/
def store_conversation (st : ServiceState) (conversation_id : String)
    (user_message : String) (assistant_message : String)
    (metadata : Option (List (String × String))) : Dict :=
  if !st.initialized then
    [("success", .bool false),
     ("message", .str "Memory service not initialized")]
  else
    [("success", .bool true),
     ("conversation_id", .str conversation_id),
     ("message", .str "Conversation stored successfully")]

/-- Embedding of `get_memory_status` (lines 135-154 of `main.py`).
The `try` body only reads the globals and `sys.version`, so the
`except` branch of lines 149-154 is dead; `str(_kb_path) if _kb_path
else None` maps a stored path to its string and `None` to null (a
`Path` object is always truthy). -/
def get_memory_status (st : ServiceState) (rt : Runtime) : Dict :=
  [("initialized", .bool st.initialized),
   ("kb_path", match st.kb_path with | some p => .str p | none => .null),
   ("python_version", .str rt.pythonVersion),
   ("available", .bool st.initialized)]

/-- Embedding of `test_connection` (lines 157-170 of `main.py`): a
constant success dict of runtime diagnostics. -/
def test_connection (rt : Runtime) : Dict :=
  [("success", .bool true),
   ("message", .str "Python plugin is working!"),
   ("python_version", .str rt.pythonVersion),
   ("platform", .str rt.platform),
   ("executable", .str rt.executable)]

/-- One call to any of the five registered functions
(`_tauri_plugin_functions`, lines 13-19 of `main.py`). -/
inductive Op where
  | initMem (p : String)
  | searchMem (q : String) (l : Int)
  | storeConv (cid um am : String) (md : Option (List (String × String)))
  | status
  | testConn
deriving DecidableEq, Repr

/-- Run one operation against the current globals and filesystem,
returning the result dict and the new globals and filesystem.  Only
`initialize_memory` mutates either. -/
def runOp (rt : Runtime) (op : Op) (s : ServiceState × FS) :
    Dict × ServiceState × FS :=
  match op with
  | .initMem p => initialize_memory s.1 s.2 p
  | .searchMem q l => (search_memory s.1 q l, s.1, s.2)
  | .storeConv cid um am md => (store_conversation s.1 cid um am md, s.1, s.2)
  | .status => (get_memory_status s.1 rt, s.1, s.2)
  | .testConn => (test_connection rt, s.1, s.2)

/-- Run a sequence of operations, threading globals and filesystem. -/
def runOps (rt : Runtime) : List Op → ServiceState × FS → ServiceState × FS
  | [], s => s
  | op :: rest, s => runOps rt rest (runOp rt op s).2

/-- Does this operation-with-result witness a successful
`initialize_memory` call (one that returned `success: True`)? -/
def initSucceeded : Op → Dict → Bool
  | .initMem _, d =>
      match getVal d "success" with
      | some (.bool b) => b
      | _ => false
  | _, _ => false

/-- Does some call in the sequence succeed as an `initialize_memory`
call, when run from the given start configuration? -/
def hasSuccessfulInit (rt : Runtime) : List Op → ServiceState × FS → Bool
  | [], _ => false
  | op :: rest, s =>
      let out := runOp rt op s
      initSucceeded op out.1 || hasSuccessfulInit rt rest out.2

/-! ## Helper lemmas -/

/-- The full target path is among the directories `mkdir(parents=True)`
creates. -/
theorem joinPath_mem_mkdirTargets (r : String) (ps : List String) :
    joinPath r ps ∈ mkdirTargets r ps := by
  unfold mkdirTargets
  cases ps with
  | nil => simp
  | cons x xs =>
      simp only [List.isEmpty_cons, Bool.false_eq_true, if_false]
      refine List.mem_map.mpr ⟨xs.length, List.mem_range.mpr (Nat.lt_succ_self _), ?_⟩
      rw [show xs.length + 1 = (x :: xs).length from rfl, List.take_length]

/-- After a successful `mkdir`, the target directory exists. -/
theorem fsMkdir_ok_mem {fs fs1 : FS} {r : String} {ps : List String}
    (h : fsMkdir fs r ps = .ok fs1) : joinPath r ps ∈ fs1.dirs := by
  unfold fsMkdir at h
  by_cases hmem : joinPath r ps ∈ fs.dirs
  · rw [if_pos hmem] at h
    cases h
    exact hmem
  · rw [if_neg hmem] at h
    cases he : fs.mkdirErr (joinPath r ps) with
    | some e => rw [he] at h; cases h
    | none =>
        rw [he] at h
        cases h
        exact List.mem_append.mpr (Or.inl (joinPath_mem_mkdirTargets r ps))

/-- Case analysis of a successful `initialize_memory` call: `mkdir`
returned normally and the whole call is the success dict together with
the updated globals. -/
theorem initialize_success_cases {st : ServiceState} {fs : FS} {s : String}
    (h : getVal (initialize_memory st fs s).1 "success" = some (.bool true)) :
    ∃ fs1, fsMkdir fs (pathRoot s) (pathParts s) = .ok fs1 ∧
      initialize_memory st fs s
        = ([("success", .bool true),
            ("message", .str ("Memory service initialized at " ++ pathNorm s)),
            ("kb_path", .str (pathNorm s))],
           { kb_path := some (pathNorm s), initialized := true }, fs1) := by
  cases hm : fsMkdir fs (pathRoot s) (pathParts s) with
  | ok fs1 =>
      refine ⟨fs1, rfl, ?_⟩
      simp [initialize_memory, hm, pathNorm]
  | error e =>
      exfalso
      simp [initialize_memory, hm, getVal] at h

/-- Case analysis of a failing `initialize_memory` call: `mkdir`
raised, and the whole call is the failure dict together with the
globals in which `_kb_path` has already been overwritten. -/
theorem initialize_failure_cases {st : ServiceState} {fs : FS} {s : String}
    (h : getVal (initialize_memory st fs s).1 "success" = some (.bool false)) :
    ∃ e, fsMkdir fs (pathRoot s) (pathParts s) = .error e ∧
      initialize_memory st fs s
        = ([("success", .bool false),
            ("message", .str ("Failed to initialize: " ++ e)),
            ("error", .str e)],
           { st with kb_path := some (pathNorm s) }, fs) := by
  cases hm : fsMkdir fs (pathRoot s) (pathParts s) with
  | ok fs1 =>
      exfalso
      simp [initialize_memory, hm, getVal] at h
  | error e =>
      refine ⟨e, rfl, ?_⟩
      simp [initialize_memory, hm, pathNorm]

/-! ## Claim theorems -/

/-- C2: for every path argument, a successful call to
`initialize_memory` stores the resolved (normalised) path in the
service state and returns a success dict containing that path under
`kb_path` together with a human-readable confirmation message. -/
theorem initialize_success_resolves_and_stores (st : ServiceState) (fs : FS) (s : String)
    (h : getVal (initialize_memory st fs s).1 "success" = some (.bool true)) :
    (initialize_memory st fs s).2.1.kb_path = some (pathNorm s) ∧
    getVal (initialize_memory st fs s).1 "kb_path" = some (.str (pathNorm s)) ∧
    getVal (initialize_memory st fs s).1 "message"
      = some (.str ("Memory service initialized at " ++ pathNorm s)) := by
  obtain ⟨fs1, hm, heq⟩ := initialize_success_cases h
  rw [heq]
  exact ⟨rfl, rfl, rfl⟩

/-- Witness for C2 at the concrete path `"kb"` on an empty, error-free
filesystem. -/
theorem initialize_success_resolves_and_stores_witness :
    (initialize_memory initialState ⟨[], fun _ => none⟩ "kb").2.1.kb_path
      = some (pathNorm "kb") ∧
    getVal (initialize_memory initialState ⟨[], fun _ => none⟩ "kb").1 "kb_path"
      = some (.str (pathNorm "kb")) ∧
    getVal (initialize_memory initialState ⟨[], fun _ => none⟩ "kb").1 "message"
      = some (.str ("Memory service initialized at " ++ pathNorm "kb")) :=
  initialize_success_resolves_and_stores initialState ⟨[], fun _ => none⟩ "kb" rfl

/-- C3: for every input value, calling `search_memory` or
`store_conversation` while `initialized` is false returns the exact
failure dict with message "Memory service not initialized" (with an
empty result sequence in the search case); both functions are total,
so no exception propagates. -/
theorem uninitialized_search_store_fail (st : ServiceState) (q : String) (l : Int)
    (cid um am : String) (md : Option (List (String × String)))
    (h : st.initialized = false) :
    search_memory st q l
      = [("success", .bool false),
         ("message", .str "Memory service not initialized"),
         ("results", .list [])] ∧
    store_conversation st cid um am md
      = [("success", .bool false),
         ("message", .str "Memory service not initialized")] := by
  constructor <;> simp [search_memory, store_conversation, h]

/-- Witness for C3 at the initial state with concrete inputs. -/
theorem uninitialized_search_store_fail_witness :
    search_memory initialState "hello" 5
      = [("success", .bool false),
         ("message", .str "Memory service not initialized"),
         ("results", .list [])] ∧
    store_conversation initialState "c1" "hi" "hello" none
      = [("success", .bool false),
         ("message", .str "Memory service not initialized")] :=
  uninitialized_search_store_fail initialState "hello" 5 "c1" "hi" "hello" none rfl

/-- C4: for every operation among the five and every input and state,
the call returns a well-formed dict carrying a boolean flag
(`success`, or `available` for the status call) distinguishing success
from failure; the embedding is a total function, so no exception
crosses the call boundary. -/
theorem every_call_returns_flagged_dict (rt : Runtime) (op : Op) (st : ServiceState) (fs : FS) :
    ∃ b : Bool,
      getVal (runOp rt op (st, fs)).1 "success" = some (.bool b) ∨
      getVal (runOp rt op (st, fs)).1 "available" = some (.bool b) := by
  cases op with
  | initMem p =>
      cases hm : fsMkdir fs (pathRoot p) (pathParts p) with
      | ok fs1 =>
          exact ⟨true, Or.inl (by simp only [runOp, initialize_memory, hm]; rfl)⟩
      | error e =>
          exact ⟨false, Or.inl (by simp only [runOp, initialize_memory, hm]; rfl)⟩
  | searchMem q l =>
      cases hi : st.initialized with
      | true => exact ⟨true, Or.inl (by simp only [runOp, search_memory, hi]; rfl)⟩
      | false => exact ⟨false, Or.inl (by simp only [runOp, search_memory, hi]; rfl)⟩
  | storeConv cid um am md =>
      cases hi : st.initialized with
      | true => exact ⟨true, Or.inl (by simp only [runOp, store_conversation, hi]; rfl)⟩
      | false => exact ⟨false, Or.inl (by simp only [runOp, store_conversation, hi]; rfl)⟩
  | status => exact ⟨st.initialized, Or.inr rfl⟩
  | testConn => exact ⟨true, Or.inl rfl⟩

/-- C5: `initialize_memory` is idempotent: when a first call succeeds,
a second call with the same path also succeeds (the directory already
exists, so `exist_ok=True` silences any error), and the resulting
globals and filesystem are exactly those after the first call. -/
theorem initialize_idempotent (st : ServiceState) (fs : FS) (s : String)
    (h : getVal (initialize_memory st fs s).1 "success" = some (.bool true)) :
    getVal (initialize_memory (initialize_memory st fs s).2.1
        (initialize_memory st fs s).2.2 s).1 "success" = some (.bool true) ∧
    (initialize_memory (initialize_memory st fs s).2.1
        (initialize_memory st fs s).2.2 s).2 = (initialize_memory st fs s).2 := by
  obtain ⟨fs1, hm, heq⟩ := initialize_success_cases h
  have hmem : joinPath (pathRoot s) (pathParts s) ∈ fs1.dirs := fsMkdir_ok_mem hm
  have h2 : fsMkdir fs1 (pathRoot s) (pathParts s) = .ok fs1 := by
    unfold fsMkdir
    rw [if_pos hmem]
  rw [heq]
  constructor
  · simp only [initialize_memory, h2]
    rfl
  · simp only [initialize_memory, h2]
    rfl

/-- Witness for C5 at the concrete path `"kb"` on an empty, error-free
filesystem. -/
theorem initialize_idempotent_witness :
    getVal (initialize_memory
        (initialize_memory initialState ⟨[], fun _ => none⟩ "kb").2.1
        (initialize_memory initialState ⟨[], fun _ => none⟩ "kb").2.2 "kb").1 "success"
      = some (.bool true) ∧
    (initialize_memory
        (initialize_memory initialState ⟨[], fun _ => none⟩ "kb").2.1
        (initialize_memory initialState ⟨[], fun _ => none⟩ "kb").2.2 "kb").2
      = (initialize_memory initialState ⟨[], fun _ => none⟩ "kb").2 :=
  initialize_idempotent initialState ⟨[], fun _ => none⟩ "kb" rfl

/-- C7: after a successful `initialize_memory` call, `search_memory`
returns the exact success dict with an empty result sequence and the
"coming soon" message, for every query and every limit; the limit
argument has no effect on the result. -/
theorem search_after_init_stub (st : ServiceState) (fs : FS) (s q : String) (l l2 : Int)
    (h : getVal (initialize_memory st fs s).1 "success" = some (.bool true)) :
    search_memory (initialize_memory st fs s).2.1 q l
      = [("success", .bool true),
         ("query", .str q),
         ("results", .list []),
         ("message", .str "Search functionality coming soon")] ∧
    search_memory (initialize_memory st fs s).2.1 q l
      = search_memory (initialize_memory st fs s).2.1 q l2 := by
  obtain ⟨fs1, hm, heq⟩ := initialize_success_cases h
  rw [heq]
  exact ⟨rfl, rfl⟩

/-- Witness for C7: `search("hello", 5)` after initializing at `"kb"`,
compared against limit 99. -/
theorem search_after_init_stub_witness :
    search_memory (initialize_memory initialState ⟨[], fun _ => none⟩ "kb").2.1 "hello" 5
      = [("success", .bool true),
         ("query", .str "hello"),
         ("results", .list []),
         ("message", .str "Search functionality coming soon")] ∧
    search_memory (initialize_memory initialState ⟨[], fun _ => none⟩ "kb").2.1 "hello" 5
      = search_memory (initialize_memory initialState ⟨[], fun _ => none⟩ "kb").2.1 "hello" 99 :=
  search_after_init_stub initialState ⟨[], fun _ => none⟩ "kb" "hello" 5 99 rfl

/-- C8: after a successful `initialize_memory` call,
`store_conversation` returns the exact success dict echoing the
conversation id, and a store call run as an operation leaves the
globals and the filesystem untouched (nothing is persisted). -/
theorem store_after_init_stub (rt : Runtime) (st : ServiceState) (fs fsx : FS)
    (s cid um am : String) (md : Option (List (String × String)))
    (h : getVal (initialize_memory st fs s).1 "success" = some (.bool true)) :
    store_conversation (initialize_memory st fs s).2.1 cid um am md
      = [("success", .bool true),
         ("conversation_id", .str cid),
         ("message", .str "Conversation stored successfully")] ∧
    (runOp rt (.storeConv cid um am md) ((initialize_memory st fs s).2.1, fsx)).2
      = ((initialize_memory st fs s).2.1, fsx) := by
  obtain ⟨fs1, hm, heq⟩ := initialize_success_cases h
  rw [heq]
  exact ⟨rfl, rfl⟩

/-- Witness for C8: `store("c1", "hi", "hello", None)` after
initializing at `"kb"`. -/
theorem store_after_init_stub_witness :
    store_conversation (initialize_memory initialState ⟨[], fun _ => none⟩ "kb").2.1
        "c1" "hi" "hello" none
      = [("success", .bool true),
         ("conversation_id", .str "c1"),
         ("message", .str "Conversation stored successfully")] ∧
    (runOp ⟨"3.12", "linux", "python"⟩ (.storeConv "c1" "hi" "hello" none)
        ((initialize_memory initialState ⟨[], fun _ => none⟩ "kb").2.1,
         (initialize_memory initialState ⟨[], fun _ => none⟩ "kb").2.2)).2
      = ((initialize_memory initialState ⟨[], fun _ => none⟩ "kb").2.1,
         (initialize_memory initialState ⟨[], fun _ => none⟩ "kb").2.2) :=
  store_after_init_stub ⟨"3.12", "linux", "python"⟩ initialState
    ⟨[], fun _ => none⟩ (initialize_memory initialState ⟨[], fun _ => none⟩ "kb").2.2
    "kb" "c1" "hi" "hello" none rfl

/-- C9: a failing `initialize_memory` call is not atomic: `_kb_path`
is assigned the new normalised path before `mkdir` is attempted, so
after a failure the state's path field holds the new path even though
the call returned a failure dict, and a subsequent `get_memory_status`
reports that new path. -/
theorem initialize_failure_overwrites_path (rt : Runtime) (st : ServiceState) (fs : FS)
    (s : String)
    (h : getVal (initialize_memory st fs s).1 "success" = some (.bool false)) :
    (initialize_memory st fs s).2.1.kb_path = some (pathNorm s) ∧
    getVal (get_memory_status (initialize_memory st fs s).2.1 rt) "kb_path"
      = some (.str (pathNorm s)) := by
  obtain ⟨e, hm, heq⟩ := initialize_failure_cases h
  rw [heq]
  exact ⟨rfl, rfl⟩

/-- Witness for C9: initializing at `"b"` on a filesystem whose
environment refuses to create `"b"`. -/
theorem initialize_failure_overwrites_path_witness :
    (initialize_memory initialState ⟨[], fun _ => some "Permission denied"⟩ "b").2.1.kb_path
      = some (pathNorm "b") ∧
    getVal (get_memory_status
        (initialize_memory initialState ⟨[], fun _ => some "Permission denied"⟩ "b").2.1
        ⟨"3.12", "linux", "python"⟩) "kb_path"
      = some (.str (pathNorm "b")) :=
  initialize_failure_overwrites_path ⟨"3.12", "linux", "python"⟩ initialState
    ⟨[], fun _ => some "Permission denied"⟩ "b" rfl

/-- C10: calling `initialize_memory` with the empty string succeeds
whenever the current directory exists: the empty path normalises to
`"."`, `mkdir` accepts the existing directory, the `initialized` flag
becomes true and a success dict is returned. -/
theorem initialize_empty_path_succeeds (st : ServiceState) (fs : FS)
    (h : "." ∈ fs.dirs) :
    pathNorm "" = "." ∧
    getVal (initialize_memory st fs "").1 "success" = some (.bool true) ∧
    (initialize_memory st fs "").2.1.initialized = true ∧
    (initialize_memory st fs "").2.1.kb_path = some "." ∧
    (initialize_memory st fs "").2.2 = fs := by
  have hp : joinPath (pathRoot "") (pathParts "") ∈ fs.dirs := h
  have hm : fsMkdir fs (pathRoot "") (pathParts "") = .ok fs := by
    simp only [fsMkdir]
    rw [if_pos hp]
  refine ⟨rfl, ?_, ?_, ?_, ?_⟩ <;> simp only [initialize_memory, hm] <;> rfl

/-- Witness for C10: the empty path on a filesystem where only the
current directory exists and `mkdir` would otherwise fail. -/
theorem initialize_empty_path_succeeds_witness :
    pathNorm "" = "." ∧
    getVal (initialize_memory initialState ⟨["."], fun _ => some "boom"⟩ "").1 "success"
      = some (.bool true) ∧
    (initialize_memory initialState ⟨["."], fun _ => some "boom"⟩ "").2.1.initialized = true ∧
    (initialize_memory initialState ⟨["."], fun _ => some "boom"⟩ "").2.1.kb_path = some "." ∧
    (initialize_memory initialState ⟨["."], fun _ => some "boom"⟩ "").2.2
      = (⟨["."], fun _ => some "boom"⟩ : FS) :=
  initialize_empty_path_succeeds initialState ⟨["."], fun _ => some "boom"⟩ (by decide)

/-- One operation leaves `initialized` true exactly when it was
already true or the operation itself is a successful initialize. -/
theorem runOp_initialized_eq (rt : Runtime) (op : Op) (s : ServiceState × FS) :
    (runOp rt op s).2.1.initialized
      = (s.1.initialized || initSucceeded op (runOp rt op s).1) := by
  cases op with
  | initMem p =>
      cases hm : fsMkdir s.2 (pathRoot p) (pathParts p) with
      | ok fs1 =>
          have h2 : initSucceeded (.initMem p) (runOp rt (.initMem p) s).1 = true := by
            simp only [runOp, initialize_memory, hm]
            rfl
          rw [h2, Bool.or_true]
          simp only [runOp, initialize_memory, hm]
      | error e =>
          have h2 : initSucceeded (.initMem p) (runOp rt (.initMem p) s).1 = false := by
            simp only [runOp, initialize_memory, hm]
            rfl
          rw [h2, Bool.or_false]
          simp only [runOp, initialize_memory, hm]
  | searchMem q l => simp [runOp, initSucceeded]
  | storeConv cid um am md => simp [runOp, initSucceeded]
  | status => simp [runOp, initSucceeded]
  | testConn => simp [runOp, initSucceeded]

/-- C6: across any sequence of the five operations, the `initialized`
flag ends true exactly when it was already true at the start or some
initialize call in the sequence succeeded: once true it is never reset
(also not by a later failing initialize), and starting from the
initial state it stays false until the first successful initialize. -/
theorem initialized_monotone_and_latched (rt : Runtime) (ops : List Op)
    (st : ServiceState) (fs : FS) :
    (runOps rt ops (st, fs)).1.initialized
      = (st.initialized || hasSuccessfulInit rt ops (st, fs)) := by
  induction ops generalizing st fs with
  | nil => simp [runOps, hasSuccessfulInit]
  | cons op rest ih =>
      simp only [runOps, hasSuccessfulInit]
      rw [show (runOp rt op (st, fs)).2
            = ((runOp rt op (st, fs)).2.1, (runOp rt op (st, fs)).2.2) from rfl]
      rw [ih (runOp rt op (st, fs)).2.1 (runOp rt op (st, fs)).2.2]
      rw [runOp_initialized_eq rt op (st, fs)]
      rw [Bool.or_assoc]

/-- Along any run, once the path field is set it stays set; in
particular `initialized` implies the path field is set, since the only
operation touching the state writes the path unconditionally. -/
theorem runOps_kb_path_set (rt : Runtime) (ops : List Op) :
    ∀ s : ServiceState × FS,
      (s.1.initialized = true → ∃ p, s.1.kb_path = some p) →
      ((runOps rt ops s).1.initialized = true →
        ∃ p, (runOps rt ops s).1.kb_path = some p) := by
  induction ops with
  | nil => intro s h; exact h
  | cons op rest ih =>
      intro s h
      simp only [runOps]
      apply ih
      cases op with
      | initMem p =>
          cases hm : fsMkdir s.2 (pathRoot p) (pathParts p) with
          | ok fs1 =>
              intro _
              simp only [runOp, initialize_memory, hm]
              exact ⟨joinPath (pathRoot p) (pathParts p), rfl⟩
          | error e =>
              intro _
              simp only [runOp, initialize_memory, hm]
              exact ⟨joinPath (pathRoot p) (pathParts p), rfl⟩
      | searchMem q l => exact h
      | storeConv cid um am md => exact h
      | status => exact h
      | testConn => exact h

/-- C1 counterexample: after a successful initialize at `"a"` followed
by a failing initialize at `"b"` (the environment refuses to create
`"b"`), the reachable state has `initialized = true` and the path
field set to `"b"`, yet `"b"` is not an existing directory — the
claimed invariant fails. -/
theorem init_invariant_counterexample :
    (runOps ⟨"3.12", "linux", "python"⟩ [.initMem "a", .initMem "b"]
        (initialState,
         ⟨[], fun s => if s = "b" then some "Permission denied" else none⟩)).1.initialized
      = true ∧
    (runOps ⟨"3.12", "linux", "python"⟩ [.initMem "a", .initMem "b"]
        (initialState,
         ⟨[], fun s => if s = "b" then some "Permission denied" else none⟩)).1.kb_path
      = some "b" ∧
    "b" ∉ (runOps ⟨"3.12", "linux", "python"⟩ [.initMem "a", .initMem "b"]
        (initialState,
         ⟨[], fun s => if s = "b" then some "Permission denied" else none⟩)).2.dirs := by
  refine ⟨rfl, rfl, ?_⟩
  decide

/-- C1 amended: in every state reachable from the initial state, if
`initialized` is true then the knowledge-base path field is set; and
the path stored by a successful initialize refers to a directory that
exists on the filesystem at that moment (it is created if absent).  A
later failing initialize can overwrite the path field with one that
does not exist while `initialized` stays true. -/
theorem init_invariant_amended :
    (∀ (rt : Runtime) (ops : List Op) (fs : FS),
        (runOps rt ops (initialState, fs)).1.initialized = true →
        ∃ p, (runOps rt ops (initialState, fs)).1.kb_path = some p) ∧
    (∀ (st : ServiceState) (fs : FS) (s : String),
        getVal (initialize_memory st fs s).1 "success" = some (.bool true) →
        (initialize_memory st fs s).2.1.kb_path = some (pathNorm s) ∧
        pathNorm s ∈ (initialize_memory st fs s).2.2.dirs) := by
  constructor
  · intro rt ops fs
    refine runOps_kb_path_set rt ops (initialState, fs) ?_
    intro h
    exact absurd h (by simp [initialState])
  · intro st fs s h
    obtain ⟨fs1, hm, heq⟩ := initialize_success_cases h
    rw [heq]
    exact ⟨rfl, fsMkdir_ok_mem hm⟩

/-- Witness for the amended C1: one successful initialize at `"kb"`
from the initial state. -/
theorem init_invariant_amended_witness :
    (∃ p, (runOps ⟨"3.12", "linux", "python"⟩ [.initMem "kb"]
        (initialState, ⟨[], fun _ => none⟩)).1.kb_path = some p) ∧
    ((initialize_memory initialState ⟨[], fun _ => none⟩ "kb").2.1.kb_path
        = some (pathNorm "kb") ∧
      pathNorm "kb" ∈ (initialize_memory initialState ⟨[], fun _ => none⟩ "kb").2.2.dirs) :=
  ⟨init_invariant_amended.1 ⟨"3.12", "linux", "python"⟩ [.initMem "kb"]
      ⟨[], fun _ => none⟩ rfl,
   init_invariant_amended.2 initialState ⟨[], fun _ => none⟩ "kb" rfl⟩
